import Mathlib

/-! Shallow embedding of the Crypto Alpha Hunter pipeline: `alpha_aggregator.py`
(extraction entry point, scorer, seen-project store, notification gate),
`task_manager.py` (recurring-task tracker) and `x_scraper.py` (feed item gate).
Machine integers are modelled as `Int`, SQLite rows as Lean structures, and the
store as the list of rows of the `seen_projects` table. -/

/-- Python `str.strip()` with no argument (ASCII whitespace), on the char list. -/
def isPySpace (c : Char) : Bool :=
  c == ' ' || c == '\t' || c == '\n' || c == '\r' || c == '\x0b' || c == '\x0c'

/-- Python `str.strip()`: drop leading and trailing whitespace. -/
def pyStrip (s : String) : String :=
  ⟨((s.data.dropWhile isPySpace).reverse.dropWhile isPySpace).reverse⟩

/-- ASCII lower-casing of one character. -/
def lowerChar (c : Char) : Char :=
  if 'A' ≤ c ∧ c ≤ 'Z' then Char.ofNat (c.toNat + 32) else c

/-- Python `str.casefold()` / `str.lower()`; every name in the tier table and
every immediate-token keyword is ASCII, where the two coincide. -/
def pyCasefold (s : String) : String := ⟨s.data.map lowerChar⟩

/-- Does `hay` start with `needle`? -/
def startsWithChars : List Char → List Char → Bool
  | [], _ => true
  | _ :: _, [] => false
  | a :: as, b :: bs => a == b && startsWithChars as bs

/-- Char-list substring test. -/
def containsChars (needle : List Char) : List Char → Bool
  | [] => needle.isEmpty
  | c :: rest => startsWithChars needle (c :: rest) || containsChars needle rest

/-- Python `needle in hay` on strings. -/
def pyInStr (needle hay : String) : Bool := containsChars needle.data hay.data

/-- One value of the `VC_TIERS` dict: a tier score and its investor list. -/
structure TierData where
  score : Int
  investors : List String
deriving DecidableEq

/-- The `VC_TIERS` dict literal exactly as the ordered sequence of key-value
pairs written in `alpha_aggregator.py` lines 10-44.  The literal repeats the
keys `tier_3` and `tier_2`; the first `tier_3` value itself repeats its inner
`investors` key, and a Python dict literal keeps the last value written for a
repeated key, so that entry carries the second inner list. -/
def VC_TIERS_entries : List (String × TierData) :=
  [ ("tier_1", ⟨10, ["Paradigm", "a16z Crypto", "Polychain Capital"]⟩),
    ("tier_2", ⟨8, ["Binance Labs", "Coinbase Ventures", "Multicoin Capital"]⟩),
    ("tier_3", ⟨5, ["Paradigm", "a16z Crypto", "Polychain Capital"]⟩),
    ("tier_2", ⟨8, ["Binance Labs", "Coinbase Ventures", "Multicoin Capital"]⟩),
    ("tier_3", ⟨5, ["OKX Ventures", "Dragonfly", "Robot Ventures"]⟩) ]

/-- The value a Python dict holds for key `k` after assigning the bindings of
`l` in order: the last binding written wins. -/
def lastBinding {α : Type} (l : List (String × α)) (k : String) : Option α :=
  l.foldl (fun acc p => if p.1 == k then some p.2 else acc) none

/-- Resolve a Python dict literal with repeated keys: distinct keys in
first-occurrence order, each carrying the last value written for it. -/
def pyDictResolve {α : Type} (l : List (String × α)) : List (String × α) :=
  ((l.map Prod.fst).eraseDups).filterMap (fun k => (lastBinding l k).map (fun v => (k, v)))

/-- The effective `VC_TIERS` mapping after duplicate-key resolution. -/
def VC_TIERS : List (String × TierData) := pyDictResolve VC_TIERS_entries

/-- `_investor_score_lookup`: flatten `VC_TIERS.values()` into casefolded
name-to-score bindings, later assignments overwriting earlier ones (looked up
through `lastBinding`, mirroring dict assignment). -/
def investor_score_lookup : List (String × Int) :=
  VC_TIERS.foldl
    (fun lookup t => lookup ++ t.2.investors.map (fun name => (pyCasefold name, t.2.score)))
    []

/-- `lookup.get(key, 0)` on the flattened score table. -/
def lookupScore (name : String) : Int := (lastBinding investor_score_lookup name).getD 0

/-- The normalization `str(investor).strip().casefold()` applied to each
investor before lookup in `calculate_score`. -/
def normalize_investor (i : String) : String := pyCasefold (pyStrip i)

/-- The label branch of `calculate_score` (lines 245-252). -/
def priority_label (total_score : Int) : String :=
  if total_score ≥ 18 then "🔥 HIGH PRIORITY"
  else if total_score ≥ 8 then "✅ MEDIUM"
  else "👀 LOW"

/-- `calculate_score` (lines 232-252): the loop re-computes the total from 0,
adding the table score of each normalized investor, defaulting to 0. -/
def calculate_score (investors : List String) : Int × String :=
  let total_score := investors.foldl (fun acc i => acc + lookupScore (normalize_investor i)) 0
  (total_score, priority_label total_score)

example : calculate_score ["a16z Crypto", "OKX Ventures"] = (15, "✅ MEDIUM") := by decide
example : calculate_score ["Paradigm", "  paradigm "] = (20, "🔥 HIGH PRIORITY") := by decide
example : calculate_score ["Nobody"] = (0, "👀 LOW") := by decide

/-- One row of the `seen_projects` table created by `init_db` (lines 61-71):
`project_name` is the `TEXT PRIMARY KEY`; the `investors` column holds the
JSON-encoded string list (modelled as the list it encodes, `none` for NULL). -/
structure Row where
  project_name : String
  last_score : Int
  timestamp : Int
  action : Option String
  investors : Option (List String)
  source : Option String
deriving DecidableEq

/-- The `seen_projects` table contents. -/
abbrev Store := List Row

/-- The store right after `init_db`: an empty table. -/
def init_store : Store := []

/-- `INSERT OR REPLACE INTO seen_projects ... VALUES ...` with `project_name`
the primary key: SQLite resolves the key conflict by deleting every conflicting
row and inserting the new one. -/
def upsert (db : Store) (r : Row) : Store :=
  db.filter (fun x => !(x.project_name == r.project_name)) ++ [r]

/-- A sequence of upserts applied in order. -/
def applyUpserts (db : Store) (rs : List Row) : Store := rs.foldl upsert db

/-- `_project_exists` (lines 270-274): `SELECT 1 FROM seen_projects WHERE
project_name = ?` returned a row. -/
def _project_exists (project_name : String) (db : Store) : Bool :=
  db.any (fun r => r.project_name == project_name)

/-- The candidate dict handed to the gate, with the fields the pipeline reads;
a missing key reads as its default through `dict.get`. -/
structure ProjectData where
  project : String := ""
  action : String := ""
  investors : List String := []
  score : Int := 0
  source : String := ""
  published : String := ""
  source_instance : String := ""
  source_type : String := ""
  immediate_token : Bool := false
  force_send : Bool := false
deriving DecidableEq

/-- `_insert_project(project_data)` (lines 277-298): strip the name and do
nothing when it is blank, else upsert the row with the current UTC time,
stripped-or-NULL `action`/`source`, and the investors kept when nonblank. -/
def _insert_project (now : Int) (d : ProjectData) (db : Store) : Store :=
  let project_name := pyStrip d.project
  if project_name == "" then db
  else
    let action := if pyStrip d.action == "" then none else some (pyStrip d.action)
    let investors := d.investors.filter (fun s => !(pyStrip s == ""))
    let source := if pyStrip d.source == "" then none else some (pyStrip d.source)
    upsert db ⟨project_name, d.score, now, action, some investors, source⟩

/-- The two-argument `_insert_project(name, score)` call sites (lines 434 and
443) issue `INSERT OR REPLACE INTO seen_projects (project_name, last_score,
timestamp) VALUES (?, ?, ?)`; the unlisted columns become NULL. -/
def _insert_project_pair (now : Int) (project_name : String) (score : Int) (db : Store) : Store :=
  upsert db ⟨project_name, score, now, none, none, none⟩

/-- The configuration the gate reads: the `TELEGRAM_PREVIEW_ONLY` flag and
whether `TELEGRAM_BOT_TOKEN`/`CHAT_ID` yield a bot. -/
structure Env where
  telegram_preview_only : Bool
  bot_available : Bool
deriving DecidableEq

/-- What one `process_and_notify` call did: the resulting store and whether a
formatted message was emitted (sent, or printed as a preview). -/
structure GateResult where
  db : Store
  alerted : Bool
deriving DecidableEq

/-- `process_and_notify` (lines 392-452), the second, overriding definition.
After the force/immediate-aware checks of lines 404-408, line 410 computes
`_format_message(project_data)` whose value the next branches discard; lines
411-415 then re-check `_project_exists(name)` and `score < 8` without any flag,
and lines 421-428 rebuild the message.  Every alert path (preview mode, missing
credentials, or the guarded send whose failures are caught) persists; the
preview and missing-credential paths additionally run the pair insert. -/
def process_and_notify (env : Env) (now : Int) (d : ProjectData) (db : Store) : GateResult :=
  if pyStrip d.project == "" then ⟨db, false⟩
  else if _project_exists (pyStrip d.project) db && !d.force_send then ⟨db, false⟩
  else if decide (d.score < 8) && !d.immediate_token && !d.force_send then ⟨db, false⟩
  else if _project_exists (pyStrip d.project) db then ⟨db, false⟩
  else if decide (d.score < 8) then ⟨db, false⟩
  else if env.telegram_preview_only then
    ⟨_insert_project_pair now (pyStrip d.project) d.score (_insert_project now d db), true⟩
  else if !env.bot_available then
    ⟨_insert_project_pair now (pyStrip d.project) d.score (_insert_project now d db), true⟩
  else
    ⟨_insert_project now d db, true⟩

/-- Python exceptions the extraction entry point can surface. -/
inductive PyError where
  | valueError (msg : String)
  | runtimeError (msg : String)
deriving DecidableEq

/-- The coerced extraction record `{project, action, investors}`. -/
structure Extraction where
  project : String
  action : String
  investors : List String
deriving DecidableEq

/-- Python truthiness of `os.getenv(...)`: `None` or the empty string is falsy. -/
def pyFalsyStr : Option String → Bool
  | none => true
  | some s => s == ""

/-- `analyze_alpha_post` (lines 210-229): raise `ValueError` when
`GEMINI_API_KEY` is unset or empty, else run the Gemini client chain
(`_analyze_with_google_genai`, falling back to `_analyze_with_google_generativeai`
on `ModuleNotFoundError`), modelled as the external collaborator `llm`. -/
def analyze_alpha_post (gemini_api_key : Option String)
    (llm : String → Except PyError Extraction) (raw_text : String) :
    Except PyError Extraction :=
  if pyFalsyStr gemini_api_key then
    Except.error (PyError.valueError "GEMINI_API_KEY environment variable is required.")
  else llm raw_text

/-- One row of the `tasks` table in `task_manager.py`; `last_completed` is the
timestamp parsed by `_parse_last_completed` (`none` for NULL or unparseable),
modelled in seconds. -/
structure TaskRow where
  id : Int
  project_name : String
  task_description : String
  frequency_days : Int
  last_completed : Option Int
deriving DecidableEq

/-- Exact seconds of `timedelta(days=1)`. -/
def secondsPerDay : Int := 86400

/-- The per-row test of `check_pending_tasks` (lines 108-117): never completed,
or `now - last_completed > timedelta(days=frequency_days)` (strict). -/
def task_is_pending (now : Int) (t : TaskRow) : Bool :=
  match t.last_completed with
  | none => true
  | some last => decide (now - last > t.frequency_days * secondsPerDay)

/-- `check_pending_tasks` (lines 93-119) over the fetched rows (the query
orders them by `project_name`; the classification is row-wise). -/
def check_pending_tasks (now : Int) (rows : List TaskRow) : List TaskRow :=
  rows.filter (task_is_pending now)

/-- `mark_task_done` (lines 122-127): `UPDATE tasks SET last_completed = now
WHERE id = ?`. -/
def mark_task_done (now : Int) (task_id : Int) (tasks : List TaskRow) : List TaskRow :=
  tasks.map (fun t => if t.id == task_id then { t with last_completed := some now } else t)

/-- `IMMEDIATE_TOKEN_KEYWORDS` from `x_scraper.py`. -/
def IMMEDIATE_TOKEN_KEYWORDS : List String :=
  ["claim now", "claim live", "token live", "tge live", "airdrop live",
   "mint live", "instant reward", "redeem now"]

/-- `_is_immediate_token_opportunity`: any keyword occurs in the lowercased text. -/
def _is_immediate_token_opportunity (text : String) : Bool :=
  IMMEDIATE_TOKEN_KEYWORDS.any (fun keyword => pyInStr keyword (pyCasefold text))

/-- A normalized feed item as built by `fetch_latest_tweets` /
`fetch_site_feed_items`. -/
structure FeedItem where
  title : String := ""
  link : String := ""
  published : String := ""
  source_instance : String := ""
  source_type : String := ""
  immediate_hint : Bool := false
deriving DecidableEq

/-- Where `_process_item` returned. -/
inductive ItemOutcome where
  | skippedEmpty
  | analysisFailed (e : PyError)
  | dropped
  | notified (d : ProjectData)
deriving DecidableEq

/-- `_process_item` (x_scraper.py lines 183-215): skip empty titles; on an
analysis exception log and return; drop the item before `process_and_notify`
when the priority label does not contain "HIGH PRIORITY" and the immediate flag
is off; else hand the assembled candidate to the gate.  The result of
`analyze_alpha_post` on the title is the external parameter `analysis`. -/
def _process_item (analysis : Except PyError Extraction) (item : FeedItem) : ItemOutcome :=
  if item.title == "" then ItemOutcome.skippedEmpty
  else
    match analysis with
    | Except.error e => ItemOutcome.analysisFailed e
    | Except.ok extracted =>
      let sp := calculate_score extracted.investors
      let immediate := item.immediate_hint || _is_immediate_token_opportunity extracted.action
      if !(pyInStr "HIGH PRIORITY" sp.2) && !immediate then ItemOutcome.dropped
      else
        ItemOutcome.notified
          { project := extracted.project, action := extracted.action,
            investors := extracted.investors, score := sp.1, source := item.link,
            published := item.published, source_instance := item.source_instance,
            source_type := item.source_type, immediate_token := immediate }

example : _process_item (Except.ok ⟨"Foo", "join", ["OKX Ventures"]⟩)
    { title := "raw", immediate_hint := false } = ItemOutcome.dropped := by decide

theorem foldl_add_map (f : String → Int) (L : List String) :
    ∀ a : Int, L.foldl (fun acc i => acc + f i) a = a + (L.map f).sum := by
  induction L with
  | nil => intro a; simp
  | cons i L ih => intro a; simp [List.foldl_cons, ih, List.sum_cons]; ring

theorem foldl_lastBinding_const {α : Type} (k : String) (l : List (String × α)) :
    ∀ acc : Option α, (∀ p ∈ l, p.1 ≠ k) →
      l.foldl (fun acc p => if p.1 == k then some p.2 else acc) acc = acc := by
  induction l with
  | nil => intro acc _; rfl
  | cons p l ih =>
    intro acc h
    have h1 : (p.1 == k) = false := by
      simp only [beq_eq_false_iff_ne]
      exact h p (by simp)
    simp only [List.foldl_cons, h1, Bool.false_eq_true, if_false]
    exact ih acc (fun q hq => h q (List.mem_cons_of_mem p hq))

theorem lookupScore_of_not_mem (n : String)
    (h : n ∉ investor_score_lookup.map Prod.fst) : lookupScore n = 0 := by
  have hall : ∀ p ∈ investor_score_lookup, p.1 ≠ n := by
    intro p hp heq
    exact h (heq ▸ List.mem_map_of_mem Prod.fst hp)
  unfold lookupScore lastBinding
  rw [foldl_lastBinding_const n investor_score_lookup none hall]
  rfl

/-- C5: `calculate_score` returns the sum over the input list of the tier score
of the normalized (stripped then casefolded) investor, names absent from the
flattened table contribute 0, duplicates each contribute, the total is
invariant under permutation of the list, and the investors of the effective
tiers 1, 2 and 3 score 10, 8 and 5 respectively. -/
theorem calculate_score_spec :
    (∀ L, (calculate_score L).1 = (L.map (fun i => lookupScore (normalize_investor i))).sum) ∧
    (∀ i L, (calculate_score (i :: L)).1
        = lookupScore (normalize_investor i) + (calculate_score L).1) ∧
    (∀ n, n ∉ investor_score_lookup.map Prod.fst → lookupScore n = 0) ∧
    (∀ L L', List.Perm L L' → (calculate_score L).1 = (calculate_score L').1) ∧
    (∀ name ∈ ((lastBinding VC_TIERS "tier_1").getD ⟨0, []⟩).investors,
        lookupScore (normalize_investor name) = 10) ∧
    (∀ name ∈ ((lastBinding VC_TIERS "tier_2").getD ⟨0, []⟩).investors,
        lookupScore (normalize_investor name) = 8) ∧
    (∀ name ∈ ((lastBinding VC_TIERS "tier_3").getD ⟨0, []⟩).investors,
        lookupScore (normalize_investor name) = 5) := by
  have hsum : ∀ L, (calculate_score L).1
      = (L.map (fun i => lookupScore (normalize_investor i))).sum := by
    intro L
    unfold calculate_score
    simpa using foldl_add_map (fun i => lookupScore (normalize_investor i)) L 0
  refine ⟨hsum, ?_, ?_, ?_, by decide, by decide, by decide⟩
  · intro i L
    rw [hsum, hsum, List.map_cons, List.sum_cons]
  · exact lookupScore_of_not_mem
  · intro L L' hperm
    rw [hsum, hsum]
    exact (hperm.map (fun i => lookupScore (normalize_investor i))).sum_eq

/-- Witness for C5 at concrete inputs: the sum formula on a two-element list,
an unmatched name scoring 0, order-independence of a swapped pair, and a tier-1
name scoring 10. -/
theorem calculate_score_spec_witness :
    (calculate_score ["OKX Ventures", "Paradigm"]).1
        = (["OKX Ventures", "Paradigm"].map (fun i => lookupScore (normalize_investor i))).sum ∧
    lookupScore "unknown fund" = 0 ∧
    (calculate_score ["OKX Ventures", "Paradigm"]).1
        = (calculate_score ["Paradigm", "OKX Ventures"]).1 ∧
    lookupScore (normalize_investor "Paradigm") = 10 :=
  ⟨calculate_score_spec.1 _,
   calculate_score_spec.2.2.1 "unknown fund" (by decide),
   calculate_score_spec.2.2.2.1 _ _ (by decide),
   calculate_score_spec.2.2.2.2.1 "Paradigm" (by decide)⟩

/-- C6: the priority label of `calculate_score` is the HIGH label iff the score
is at least 18, the MEDIUM label iff it lies in [8, 18), and the LOW label iff
it is below 8; the boundary scores 7, 8, 17, 18 map to LOW, MEDIUM, MEDIUM,
HIGH. -/
theorem priority_label_spec :
    (∀ L, (calculate_score L).2 = priority_label (calculate_score L).1) ∧
    (∀ s : Int,
      (priority_label s = "🔥 HIGH PRIORITY" ↔ s ≥ 18) ∧
      (priority_label s = "✅ MEDIUM" ↔ 8 ≤ s ∧ s < 18) ∧
      (priority_label s = "👀 LOW" ↔ s < 8)) ∧
    priority_label 7 = "👀 LOW" ∧ priority_label 8 = "✅ MEDIUM" ∧
    priority_label 17 = "✅ MEDIUM" ∧ priority_label 18 = "🔥 HIGH PRIORITY" := by
  have hne1 : ("🔥 HIGH PRIORITY" : String) = "✅ MEDIUM" ↔ False := by
    exact iff_false_intro (by decide)
  have hne2 : ("🔥 HIGH PRIORITY" : String) = "👀 LOW" ↔ False := by
    exact iff_false_intro (by decide)
  have hne3 : ("✅ MEDIUM" : String) = "🔥 HIGH PRIORITY" ↔ False := by
    exact iff_false_intro (by decide)
  have hne4 : ("✅ MEDIUM" : String) = "👀 LOW" ↔ False := by
    exact iff_false_intro (by decide)
  have hne5 : ("👀 LOW" : String) = "🔥 HIGH PRIORITY" ↔ False := by
    exact iff_false_intro (by decide)
  have hne6 : ("👀 LOW" : String) = "✅ MEDIUM" ↔ False := by
    exact iff_false_intro (by decide)
  refine ⟨fun L => rfl, ?_, by decide, by decide, by decide, by decide⟩
  intro s
  unfold priority_label
  split_ifs with h1 h2 <;>
    refine ⟨?_, ?_, ?_⟩ <;>
    simp only [hne1, hne2, hne3, hne4, hne5, hne6, iff_false, false_iff,
      not_and, not_lt, ge_iff_le, true_iff, iff_true] <;>
    omega

/-- Witness for C6 applying the iff at concrete scores. -/
theorem priority_label_spec_witness :
    priority_label 20 = "🔥 HIGH PRIORITY" ∧ priority_label 15 = "✅ MEDIUM" ∧
    priority_label 0 = "👀 LOW" :=
  ⟨((priority_label_spec.2.1 20).1.2 (by decide)),
   ((priority_label_spec.2.1 15).2.1.2 (by decide)),
   ((priority_label_spec.2.1 0).2.2.2 (by decide))⟩

theorem pyInStr_priority_label (s : Int) :
    pyInStr "HIGH PRIORITY" (priority_label s) = true ↔ s ≥ 18 := by
  have e1 : pyInStr "HIGH PRIORITY" "🔥 HIGH PRIORITY" = true := by decide
  have e2 : pyInStr "HIGH PRIORITY" "✅ MEDIUM" = false := by decide
  have e3 : pyInStr "HIGH PRIORITY" "👀 LOW" = false := by decide
  unfold priority_label
  split_ifs with h1 h2 <;> simp [e1, e2, e3] <;> omega

/-- C10: on the scraper path, an item whose extracted candidate scores below 18
(equivalently, whose priority label does not contain "HIGH PRIORITY") and whose
computed immediate flag is off makes `_process_item` return `dropped` — before
`process_and_notify`, so with no alert and no store write. -/
theorem process_item_drops_non_high :
    (∀ (item : FeedItem) (analysis : Except PyError Extraction) (ex : Extraction),
      ¬item.title = "" → analysis = Except.ok ex →
      (calculate_score ex.investors).1 < 18 →
      (item.immediate_hint || _is_immediate_token_opportunity ex.action) = false →
      _process_item analysis item = ItemOutcome.dropped) ∧
    (∀ L, pyInStr "HIGH PRIORITY" (calculate_score L).2 = false ↔
      (calculate_score L).1 < 18) := by
  have hlab : ∀ L, pyInStr "HIGH PRIORITY" (calculate_score L).2 = false ↔
      (calculate_score L).1 < 18 := by
    intro L
    have h := pyInStr_priority_label (calculate_score L).1
    have h2 : (calculate_score L).2 = priority_label (calculate_score L).1 := rfl
    rw [h2, Bool.eq_false_iff, ne_eq, h]
    constructor <;> intro <;> omega
  refine ⟨?_, hlab⟩
  intro item analysis ex htitle hok hscore himm
  subst hok
  unfold _process_item
  have ht : (item.title == "") = false := by simpa using htitle
  rw [ht]
  simp only [Bool.false_eq_true, if_false]
  have hc : pyInStr "HIGH PRIORITY" (calculate_score ex.investors).2 = false :=
    (hlab ex.investors).2 hscore
  simp [hc, himm]

/-- Witness for C10: a concrete MEDIUM-scored, non-immediate item is dropped,
and its label indeed lacks "HIGH PRIORITY". -/
theorem process_item_drops_non_high_witness :
    _process_item (Except.ok ⟨"Nexus", "Join the testnet", ["a16z Crypto", "OKX Ventures"]⟩)
      { title := "Project: Nexus raised funding", link := "https://x.com/p/1" }
      = ItemOutcome.dropped ∧
    (pyInStr "HIGH PRIORITY" (calculate_score ["a16z Crypto", "OKX Ventures"]).2 = false ↔
      (calculate_score ["a16z Crypto", "OKX Ventures"]).1 < 18) :=
  ⟨process_item_drops_non_high.1 _ _ ⟨"Nexus", "Join the testnet", ["a16z Crypto", "OKX Ventures"]⟩
      (by decide) rfl (by decide) (by decide),
   process_item_drops_non_high.2 ["a16z Crypto", "OKX Ventures"]⟩

/-- C1 counterexample: with `GEMINI_API_KEY` absent, `analyze_alpha_post` on
the spec's own end-to-end input does not return an extraction record at all —
it raises `ValueError` — whatever the Gemini collaborator would have answered. -/
theorem analyze_without_key_counterexample :
    analyze_alpha_post none (fun _ => Except.ok ⟨"Nexus", "Join", ["a16z Crypto"]⟩)
      "Project: Nexus raised funding led by a16z Crypto and OKX Ventures"
      = Except.error (PyError.valueError "GEMINI_API_KEY environment variable is required.") :=
  rfl

/-- C1 (amended): when `GEMINI_API_KEY` is unset (or empty), `analyze_alpha_post`
raises `ValueError` to its caller for every raw text; there is no rule-based
fallback extractor. -/
theorem analyze_raises_without_key :
    ∀ (llm : String → Except PyError Extraction) (raw_text : String),
      analyze_alpha_post none llm raw_text
        = Except.error (PyError.valueError "GEMINI_API_KEY environment variable is required.") ∧
      analyze_alpha_post (some "") llm raw_text
        = Except.error (PyError.valueError "GEMINI_API_KEY environment variable is required.") :=
  fun _ _ => ⟨rfl, rfl⟩

/-- C2: the connectivity-test candidate (score 10, `force_send = true`) whose
project name is already in the store is silently dropped — no message, no
store write — because line 411 re-checks `_project_exists` without the force
flag; likewise a forced unseen candidate with score below 8 is dropped by the
flagless re-check of line 414. -/
theorem force_send_does_not_alert :
    process_and_notify ⟨false, true⟩ 100
      { project := "Nexus Alpha Test", action := "Connectivity check",
        investors := ["Paradigm"], score := 10, source := "local-test",
        immediate_token := false, force_send := true }
      [⟨"Nexus Alpha Test", 10, 0, none, none, none⟩]
      = ⟨[⟨"Nexus Alpha Test", 10, 0, none, none, none⟩], false⟩ ∧
    process_and_notify ⟨false, true⟩ 100
      { project := "PingLow", score := 5, force_send := true } []
      = ⟨[], false⟩ := by
  decide

/-- C3: an unseen, unforced candidate with score 5 < 8 and
`immediate_token = true` passes the immediate-aware check of line 407 but is
then dropped by the flagless `score < 8` re-check of line 414: no message, no
persistence. -/
theorem immediate_token_does_not_alert :
    process_and_notify ⟨false, true⟩ 50
      { project := "FreshDrop", action := "Claim now on the site",
        investors := ["OKX Ventures"], score := 5, immediate_token := true }
      []
      = ⟨[], false⟩ := by
  decide

/-- C4 counterexample: a suppressed candidate (project already seen, not
forced, new score 18 at time 100) leaves the store byte-for-byte unchanged —
the row keeps `last_score = 5` and `timestamp = 0` — although an upsert would
have changed it. -/
theorem suppressed_candidate_not_persisted :
    process_and_notify ⟨false, true⟩ 100
      { project := "Monad", action := "Join Testnet",
        investors := ["Paradigm", "Coinbase Ventures"], score := 18,
        source := "https://nitter.net/Monad_xyz" }
      [⟨"Monad", 5, 0, none, none, none⟩]
      = ⟨[⟨"Monad", 5, 0, none, none, none⟩], false⟩ ∧
    _insert_project 100
      { project := "Monad", action := "Join Testnet",
        investors := ["Paradigm", "Coinbase Ventures"], score := 18,
        source := "https://nitter.net/Monad_xyz" }
      [⟨"Monad", 5, 0, none, none, none⟩]
      ≠ [⟨"Monad", 5, 0, none, none, none⟩] := by
  constructor
  · decide
  · decide

/-- C4 (amended): whenever the gate suppresses the alert — in particular when
the project already exists in the store, or when the score is below 8 — the
call performs no store write at all: the result is the unchanged store and no
message. -/
theorem gate_suppression_is_total_noop :
    ∀ (env : Env) (now : Int) (d : ProjectData) (db : Store),
      (_project_exists (pyStrip d.project) db = true ∨ d.score < 8) →
      process_and_notify env now d db = ⟨db, false⟩ := by
  intro env now d db h
  unfold process_and_notify
  split_ifs with hname h1 h2 h3 h4 h5 h6 <;> try rfl
  all_goals {
    exfalso
    rcases h with hex | hsc
    · exact h3 hex
    · exact h4 (decide_eq_true hsc)
  }

/-- Witness for C4 (amended): the suppressed "Monad" candidate above through
the general theorem. -/
theorem gate_suppression_is_total_noop_witness :
    process_and_notify ⟨true, false⟩ 7
      { project := "Monad", score := 18 }
      [⟨"Monad", 5, 0, none, none, none⟩]
      = ⟨[⟨"Monad", 5, 0, none, none, none⟩], false⟩ :=
  gate_suppression_is_total_noop ⟨true, false⟩ 7
    { project := "Monad", score := 18 }
    [⟨"Monad", 5, 0, none, none, none⟩] (Or.inl (by decide))

/-- C7: a candidate whose project is blank after stripping is a complete no-op:
`process_and_notify` returns the unchanged store with no alert, and
`_insert_project` writes nothing. -/
theorem blank_project_is_noop :
    (∀ (env : Env) (now : Int) (d : ProjectData) (db : Store),
      pyStrip d.project = "" → process_and_notify env now d db = ⟨db, false⟩) ∧
    (∀ (now : Int) (d : ProjectData) (db : Store),
      pyStrip d.project = "" → _insert_project now d db = db) := by
  constructor
  · intro env now d db h
    unfold process_and_notify
    simp [h]
  · intro now d db h
    unfold _insert_project
    simp [h]

/-- Witness for C7: a project name of pure whitespace, against a nonempty
store. -/
theorem blank_project_is_noop_witness :
    process_and_notify ⟨false, true⟩ 3
      { project := "   ", score := 99, force_send := true }
      [⟨"Other", 1, 0, none, none, none⟩]
      = ⟨[⟨"Other", 1, 0, none, none, none⟩], false⟩ ∧
    _insert_project 3 { project := "   ", score := 99 }
      [⟨"Other", 1, 0, none, none, none⟩]
      = [⟨"Other", 1, 0, none, none, none⟩] :=
  ⟨blank_project_is_noop.1 ⟨false, true⟩ 3 _ _ (by decide),
   blank_project_is_noop.2 3 _ _ (by decide)⟩

/-- C8: a task is classified pending iff it was never completed (NULL parses to
`none`) or strictly more than `frequency_days` have elapsed since
`last_completed`; `check_pending_tasks` returns exactly the pending rows; with
`frequency_days = 7` a completion 8 days ago is pending and 6 days ago is not;
and immediately after `mark_task_done` the task is not pending (its
`frequency_days` being positive, per the data model). -/
theorem pending_task_spec :
    (∀ (now : Int) (t : TaskRow), task_is_pending now t = true ↔
      (t.last_completed = none ∨
       ∃ last, t.last_completed = some last ∧
         now - last > t.frequency_days * secondsPerDay)) ∧
    (∀ (now : Int) (rows : List TaskRow) (t : TaskRow),
      t ∈ check_pending_tasks now rows ↔ t ∈ rows ∧ task_is_pending now t = true) ∧
    (∀ (now tid : Int) (pn desc : String),
      task_is_pending now ⟨tid, pn, desc, 7, some (now - 8 * secondsPerDay)⟩ = true ∧
      task_is_pending now ⟨tid, pn, desc, 7, some (now - 6 * secondsPerDay)⟩ = false) ∧
    (∀ (now task_id : Int) (tasks : List TaskRow) (t : TaskRow),
      t ∈ mark_task_done now task_id tasks → t.id = task_id → 0 < t.frequency_days →
      task_is_pending now t = false) := by
  refine ⟨?_, ?_, ?_, ?_⟩
  · intro now t
    cases h : t.last_completed with
    | none => simp [task_is_pending, h]
    | some last => simp [task_is_pending, h]
  · intro now rows t
    simp [check_pending_tasks, List.mem_filter]
  · intro now tid pn desc
    constructor <;>
      simp only [task_is_pending, secondsPerDay, decide_eq_true_eq,
        decide_eq_false_iff_not] <;>
      omega
  · intro now task_id tasks t hmem hid hfreq
    unfold mark_task_done at hmem
    rw [List.mem_map] at hmem
    obtain ⟨t0, ht0, heq⟩ := hmem
    cases hb : t0.id == task_id with
    | true =>
      rw [hb, if_pos rfl] at heq
      subst heq
      simp only [task_is_pending, secondsPerDay, decide_eq_false_iff_not]
      simp only at hfreq
      omega
    | false =>
      rw [hb] at heq
      simp only [Bool.false_eq_true, if_false] at heq
      subst heq
      rw [hid] at hb
      simp at hb

/-- Witness for C8: both seven-day boundaries at `now = 0`, and a task marked
done at time 5 is not pending at time 5. -/
theorem pending_task_spec_witness :
    task_is_pending 0 ⟨1, "MetaMask", "Perform 1 Swap", 7, some (0 - 8 * secondsPerDay)⟩ = true ∧
    task_is_pending 0 ⟨1, "MetaMask", "Perform 1 Swap", 7, some (0 - 6 * secondsPerDay)⟩ = false ∧
    task_is_pending 5 ⟨1, "MetaMask", "Perform 1 Swap", 7, some 5⟩ = false :=
  ⟨(pending_task_spec.2.2.1 0 1 "MetaMask" "Perform 1 Swap").1,
   (pending_task_spec.2.2.1 0 1 "MetaMask" "Perform 1 Swap").2,
   pending_task_spec.2.2.2 5 1 [⟨1, "MetaMask", "Perform 1 Swap", 7, none⟩]
     ⟨1, "MetaMask", "Perform 1 Swap", 7, some 5⟩ (by decide) rfl (by decide)⟩

theorem filter_upsert_self (db : Store) (r : Row) :
    (upsert db r).filter (fun x => x.project_name == r.project_name) = [r] := by
  unfold upsert
  rw [List.filter_append]
  have h1 : (db.filter (fun x => !(x.project_name == r.project_name))).filter
      (fun x => x.project_name == r.project_name) = [] := by
    rw [List.filter_filter]
    simp
  rw [h1]
  simp

theorem upsert_countP_le (db : Store) (r : Row) (nm : String)
    (h : db.countP (fun x => x.project_name == nm) ≤ 1) :
    (upsert db r).countP (fun x => x.project_name == nm) ≤ 1 := by
  unfold upsert
  rw [List.countP_append]
  by_cases hnm : r.project_name = nm
  · subst hnm
    have h0 : (db.filter (fun x => !(x.project_name == r.project_name))).countP
        (fun x => x.project_name == r.project_name) = 0 := by
      rw [List.countP_eq_zero]
      intro a ha
      have hpred := (List.mem_filter.mp ha).2
      simp at hpred ⊢
      exact hpred
    rw [h0]
    simp [List.countP_cons]
  · have h2 : (([r] : Store)).countP (fun x => x.project_name == nm) = 0 := by
      simp [List.countP_cons, hnm]
    have h3 : (db.filter (fun x => !(x.project_name == r.project_name))).countP
          (fun x => x.project_name == nm)
        ≤ db.countP (fun x => x.project_name == nm) :=
      (List.filter_sublist db).countP_le _
    omega

theorem applyUpserts_countP_le (rs : List Row) :
    ∀ db : Store, (∀ nm, db.countP (fun x => x.project_name == nm) ≤ 1) →
      ∀ nm, (applyUpserts db rs).countP (fun x => x.project_name == nm) ≤ 1 := by
  induction rs with
  | nil => intro db h nm; exact h nm
  | cons r rs ih =>
    intro db h nm
    exact ih (upsert db r) (fun nm2 => upsert_countP_le db r nm2 (h nm2)) nm

theorem upsert_names_nodup (db : Store) (r : Row)
    (h : (db.map Row.project_name).Nodup) :
    ((upsert db r).map Row.project_name).Nodup := by
  unfold upsert
  rw [List.map_append, List.nodup_append]
  refine ⟨?_, List.nodup_singleton _, ?_⟩
  · exact List.Nodup.sublist ((List.filter_sublist db).map Row.project_name) h
  · intro a ha hmem
    rw [List.mem_map] at ha
    obtain ⟨x, hx, hax⟩ := ha
    have hpred := (List.mem_filter.mp hx).2
    simp at hmem hpred
    exact hpred (hax.trans hmem)

/-- C9: starting from the freshly initialized (empty) store, every sequence of
`INSERT OR REPLACE` upserts leaves at most one row per `project_name`; the
upsert preserves distinctness of the key column; and after any run of upserts
ending with row `r`, the store holds exactly one row named `r.project_name`,
namely `r` itself — only the latest observation survives. -/
theorem seen_projects_unique_key :
    (∀ (rs : List Row) (nm : String),
      (applyUpserts init_store rs).countP (fun x => x.project_name == nm) ≤ 1) ∧
    (∀ (db : Store) (r : Row), (db.map Row.project_name).Nodup →
      ((upsert db r).map Row.project_name).Nodup) ∧
    (∀ (db : Store) (rs : List Row) (r : Row),
      (applyUpserts db (rs ++ [r])).filter
        (fun x => x.project_name == r.project_name) = [r]) := by
  refine ⟨?_, upsert_names_nodup, ?_⟩
  · intro rs nm
    refine applyUpserts_countP_le rs init_store ?_ nm
    intro nm2
    simp [init_store]
  · intro db rs r
    have hsplit : applyUpserts db (rs ++ [r]) = upsert (applyUpserts db rs) r := by
      unfold applyUpserts
      rw [List.foldl_append]
      rfl
    rw [hsplit]
    exact filter_upsert_self _ r

/-- Witness for C9: two upserts of "Monad" from the empty store leave one row,
the later one. -/
theorem seen_projects_unique_key_witness :
    (applyUpserts init_store
        [⟨"Monad", 18, 1, none, none, none⟩, ⟨"Monad", 15, 2, none, none, none⟩]).countP
      (fun x => x.project_name == "Monad") ≤ 1 ∧
    ((upsert [⟨"Monad", 18, 1, none, none, none⟩] ⟨"Monad", 15, 2, none, none, none⟩).map
      Row.project_name).Nodup ∧
    (applyUpserts init_store
        ([⟨"Monad", 18, 1, none, none, none⟩] ++ [⟨"Monad", 15, 2, none, none, none⟩])).filter
      (fun x => x.project_name == "Monad") = [⟨"Monad", 15, 2, none, none, none⟩] :=
  ⟨seen_projects_unique_key.1 _ "Monad",
   seen_projects_unique_key.2.1 _ _ (by decide),
   seen_projects_unique_key.2.2 init_store [⟨"Monad", 18, 1, none, none, none⟩]
     ⟨"Monad", 15, 2, none, none, none⟩⟩
